import Mathlib

/-!
Shallow embedding of the mcp-pdf document composition pipeline
(src/mcp_pdf/models/theme_spec.py, src/mcp_pdf/models/document_spec.py,
src/mcp_pdf/rendering/pdf_generator.py).

Conventions of the embedding:
* Python `Optional[str]` becomes `Option String`; Python truthiness of an
  optional string (`if x:`) is `none` / `some ""` falsy, everything else truthy.
* The reportlab layout primitives appended to `self.story` become the
  `Primitive` inductive; spacer heights are recorded in hundredths of an inch
  (`Spacer(1, 0.2 * inch)` becomes `Primitive.spacer 20`).
* Filesystem, network and subprocess effects are an explicit `Env` of oracles;
  the mutable `self.story` / `self.downloaded_images` state becomes values
  returned and threaded explicitly.  Every page composer in the source only
  appends to both lists, so each page is modelled as the pair
  (primitives it appends, temp files it records), concatenated in order.
* `Paragraph(None, style)` raises in reportlab, so building a paragraph from
  an unset optional field is modelled as `none` (an aborted page).
-/

namespace McpPdf

/-- `PageType` enum from document_spec.py (ten page kinds).  The Python member
`SECTION` is `sect` here because `section` is a Lean keyword. -/
inductive PageType where
  | title
  | toc
  | sect
  | content
  | code
  | diagram
  | image
  | mermaid
  | summary
  | references
deriving DecidableEq, Repr

/-- The `description` field of `PageSpec`: Python `Union[str, List[str]]`. -/
inductive Descr where
  | str (s : String)
  | list (l : List String)
deriving DecidableEq, Repr

/-- `ContentItem` model from document_spec.py. -/
structure ContentItem where
  type : String := "text"
  text : Option String := none
  items : Option (List String) := none
  code : Option String := none
  language : Option String := none
  image_path : Option String := none
  image_url : Option String := none
  caption : Option String := none
  table_data : Option (List (List String)) := none
  table_headers : Option (List String) := none
deriving DecidableEq, Repr

/-- The flat `PageSpec` model from document_spec.py: every kind-specific field
lives on the one structure, all optional except `page_type`, `line_numbers`
(default `False`) and `style` (default `"numbered"`). -/
structure PageSpec where
  page_type : PageType
  title : Option String := none
  subtitle : Option String := none
  author : Option String := none
  date : Option String := none
  additional_info : Option String := none
  entries : Option (List String) := none
  content : Option (List ContentItem) := none
  code : Option String := none
  language : Option String := none
  line_numbers : Bool := false
  image_path : Option String := none
  image_url : Option String := none
  diagram_path : Option String := none
  diagram_url : Option String := none
  caption : Option String := none
  description : Option Descr := none
  mermaid_code : Option String := none
  key_points : Option (List String) := none
  conclusion : Option String := none
  references : Option (List String) := none
  style : String := "numbered"
deriving DecidableEq, Repr

/-- `ColorPalette` from theme_spec.py with its field defaults. -/
structure ColorPalette where
  primary : String := "#E3342F"
  secondary : String := "#1CCBD0"
  accent : String := "#F59E0B"
  background : String := "#FFFFFF"
  text : String := "#111827"
  code_bg : String := "#F5F5F5"
deriving DecidableEq, Repr

/-- `FontPalette` from theme_spec.py with its field defaults. -/
structure FontPalette where
  heading : String := "Helvetica-Bold"
  body : String := "Helvetica"
  code : String := "Courier"
deriving DecidableEq, Repr

/-- `ThemeSpec` from theme_spec.py.  Numeric fields are kept as the integer
point values of the source defaults; the two fractional fields are scaled by
ten (`line_spacing 1.2` is stored as `12`, `paragraph_spacing 6` as `60`)
so the model stays within exact arithmetic. -/
structure ThemeSpec where
  colors : ColorPalette := {}
  fonts : FontPalette := {}
  logo_path : Option String := none
  title_font_size : Nat := 24
  subtitle_font_size : Nat := 16
  h1_font_size : Nat := 18
  h2_font_size : Nat := 14
  h3_font_size : Nat := 12
  body_font_size : Nat := 10
  code_font_size : Nat := 9
  line_spacing_tenths : Nat := 12
  paragraph_spacing_tenths : Nat := 60
  page_width : Nat := 612
  page_height : Nat := 792
  margin_top : Nat := 72
  margin_bottom : Nat := 72
  margin_left : Nat := 72
  margin_right : Nat := 72
deriving DecidableEq, Repr

/-- A partially supplied `ColorPalette` as it arrives on the wire: `none`
means the key was absent and pydantic fills that field's default. -/
structure ColorPaletteInput where
  primary : Option String := none
  secondary : Option String := none
  accent : Option String := none
  background : Option String := none
  text : Option String := none
  code_bg : Option String := none
deriving DecidableEq, Repr

/-- A partially supplied `FontPalette`. -/
structure FontPaletteInput where
  heading : Option String := none
  body : Option String := none
  code : Option String := none
deriving DecidableEq, Repr

/-- A partially supplied `ThemeSpec`: each absent group or scalar gets its
default (`default_factory=ColorPalette` and friends). -/
structure ThemeSpecInput where
  colors : Option ColorPaletteInput := none
  fonts : Option FontPaletteInput := none
  logo_path : Option String := none
  title_font_size : Option Nat := none
  subtitle_font_size : Option Nat := none
  h1_font_size : Option Nat := none
  h2_font_size : Option Nat := none
  h3_font_size : Option Nat := none
  body_font_size : Option Nat := none
  code_font_size : Option Nat := none
  line_spacing_tenths : Option Nat := none
  paragraph_spacing_tenths : Option Nat := none
  page_width : Option Nat := none
  page_height : Option Nat := none
  margin_top : Option Nat := none
  margin_bottom : Option Nat := none
  margin_left : Option Nat := none
  margin_right : Option Nat := none
deriving DecidableEq, Repr

/-- pydantic construction of a `ColorPalette` from a partial input: each
field independently falls back to its declared default. -/
def ColorPalette.resolve (i : ColorPaletteInput) : ColorPalette where
  primary := i.primary.getD "#E3342F"
  secondary := i.secondary.getD "#1CCBD0"
  accent := i.accent.getD "#F59E0B"
  background := i.background.getD "#FFFFFF"
  text := i.text.getD "#111827"
  code_bg := i.code_bg.getD "#F5F5F5"

/-- pydantic construction of a `FontPalette` from a partial input. -/
def FontPalette.resolve (i : FontPaletteInput) : FontPalette where
  heading := i.heading.getD "Helvetica-Bold"
  body := i.body.getD "Helvetica"
  code := i.code.getD "Courier"

/-- pydantic construction of a `ThemeSpec` from a partial input: an absent
`colors` / `fonts` group is built by its `default_factory`, a supplied group
resolves its own fields independently; scalars fall back field by field.
Total: theme resolution has no failure path in the source. -/
def ThemeSpec.resolve (i : ThemeSpecInput) : ThemeSpec where
  colors := ColorPalette.resolve (i.colors.getD {})
  fonts := FontPalette.resolve (i.fonts.getD {})
  logo_path := i.logo_path
  title_font_size := i.title_font_size.getD 24
  subtitle_font_size := i.subtitle_font_size.getD 16
  h1_font_size := i.h1_font_size.getD 18
  h2_font_size := i.h2_font_size.getD 14
  h3_font_size := i.h3_font_size.getD 12
  body_font_size := i.body_font_size.getD 10
  code_font_size := i.code_font_size.getD 9
  line_spacing_tenths := i.line_spacing_tenths.getD 12
  paragraph_spacing_tenths := i.paragraph_spacing_tenths.getD 60
  page_width := i.page_width.getD 612
  page_height := i.page_height.getD 792
  margin_top := i.margin_top.getD 72
  margin_bottom := i.margin_bottom.getD 72
  margin_left := i.margin_left.getD 72
  margin_right := i.margin_right.getD 72

/-- `_is_url`: purely syntactic scheme test, `startswith(('http://',
'https://'))` (pdf_generator.py line 519 and the same test inside
`PageSpec.handle_image_field`), expressed on the character lists. -/
def isUrl (s : String) : Bool :=
  "http://".data.isPrefixOf s.data || "https://".data.isPrefixOf s.data

/-- The pre-validation value dictionary seen by `PageSpec.handle_image_field`,
restricted to the keys that validator reads or writes.  `none` = key absent. -/
structure RawPageValues where
  page_type : Option PageType := none
  image : Option String := none
  image_path : Option String := none
  image_url : Option String := none
  diagram_path : Option String := none
  diagram_url : Option String := none
deriving DecidableEq, Repr

/-- `PageSpec.handle_image_field` (document_spec.py lines 163-187): pop the
`image` shorthand, route it to `diagram_url`/`diagram_path` when the page
kind is diagram, else to `image_url`/`image_path`, chosen by the HTTP(S)
scheme test on the value. -/
def handle_image_field (v : RawPageValues) : RawPageValues :=
  match v.image with
  | none => v
  | some iv =>
    if v.page_type = some PageType.diagram then
      if isUrl iv then
        { v with image := none, diagram_url := some iv }
      else
        { v with image := none, diagram_path := some iv }
    else
      if isUrl iv then
        { v with image := none, image_url := some iv }
      else
        { v with image := none, image_path := some iv }

/-- Semantic style roles of `self.styles` built by `_setup_styles`, plus the
ad hoc caption style built inside `_add_image`. -/
inductive Style where
  | title
  | subtitle
  | h1
  | h2
  | h3
  | body
  | bullet
  | code
  | caption
deriving DecidableEq, Repr

/-- Layout primitives appended to `self.story`.  Spacer heights are in
hundredths of an inch; a table records the final row matrix handed to
reportlab's `Table`; `pre` is a `Preformatted` code block. -/
inductive Primitive where
  | para (text : String) (style : Style)
  | spacer (h : Nat)
  | pageBreak
  | image (path : String)
  | table (data : List (List String))
  | pre (text : String)
deriving DecidableEq, Repr

/-- Outcome of one `mmdc` invocation inside `_render_mermaid_to_png`:
success with the rendered raster path, non-zero exit, 30-second timeout, or
the external tool missing (`FileNotFoundError`). -/
inductive MermaidOutcome where
  | success (pngPath : String)
  | exitFailure
  | timeout
  | toolMissing
deriving DecidableEq, Repr

/-- The ambient effects of one generation run, as oracles: directory
existence / `mkdir(parents=True)` success / write-probe (touch then unlink a
sentinel) success, file existence at embedding time, `_download_image`
results (`none` = any network or IO failure; `some p` = the fresh temporary
path written), `_render_mermaid_to_png` subprocess outcomes, and whether a
best-effort `os.unlink` of a temp file succeeds. -/
structure Env where
  dirExists : String → Bool
  mkdirOk : String → Bool
  probeOk : String → Bool
  fileExists : String → Bool
  download : String → Option String
  renderDiagram : String → MermaidOutcome
  deleteOk : String → Bool

/-- Python truthiness of an optional string. -/
def optTruthy : Option String → Bool
  | none => false
  | some s => !(s == "")

/-- `if x:` guard on an optional string followed by emitting primitives from
its (truthy) value. -/
def ifTruthy (x : Option String) (f : String → List Primitive) : List Primitive :=
  match x with
  | none => []
  | some s => if s = "" then [] else f s

/-- Python `a or b` on two optional strings (falsy `a`, that is `None` or
`""`, yields `b`). -/
def pyOr (a b : Option String) : Option String :=
  match a with
  | none => b
  | some s => if s = "" then b else some s

/-- Python `a or default` yielding a plain string (used for the defaulted
page headings, e.g. `page.title or "Summary"`). -/
def pyOrStr (a : Option String) (default : String) : String :=
  match a with
  | none => default
  | some s => if s = "" then default else s

/-- `if xs: for x in xs: emit (f x)` — iterating an optional list; an absent
or empty list emits nothing, which coincides with mapping over `getD []`. -/
def eachItem (xs : Option (List String)) (f : String → Primitive) : List Primitive :=
  (xs.getD []).map f

/-- The inline error paragraph `_add_mermaid_page` emits when
`_render_mermaid_to_png` returns `None`. -/
def mermaidErrMsg : String :=
  "[Failed to render Mermaid diagram. Please ensure @mermaid-js/mermaid-cli is installed]"

/-- Embedding step of `_add_image` after URL resolution: existence check on
the actual (possibly downloaded) path, then the image primitive and optional
caption, or the not-found paragraph naming the original reference. -/
def imageAt (env : Env) (actual orig : String) (cap : Option String) : List Primitive :=
  if env.fileExists actual then
    [Primitive.image actual] ++ ifTruthy cap (fun c => [Primitive.spacer 10, Primitive.para c Style.caption])
  else
    [Primitive.para ("[Image not found: " ++ orig ++ "]") Style.body]

/-- `_add_image` (pdf_generator.py lines 607-643): a URL is downloaded first
(recording the temp file for cleanup; a failed download degrades to an inline
error paragraph), a local path is used as-is; then `imageAt`.  Returns the
primitives appended and the temp files recorded. -/
def addImage (env : Env) (image_path : String) (cap : Option String) :
    List Primitive × List String :=
  if isUrl image_path then
    match env.download image_path with
    | some dl => (imageAt env dl image_path cap, [dl])
    | none =>
      ([Primitive.para ("[Failed to download image from: " ++ image_path ++ "]") Style.body], [])
  else
    (imageAt env image_path image_path cap, [])

/-- `if ref: self._add_image(ref, caption)` on the result of a `path or url`
expression: a falsy reference emits nothing. -/
def imageFromRef (env : Env) (ref : Option String) (cap : Option String) :
    List Primitive × List String :=
  match ref with
  | none => ([], [])
  | some v => if v = "" then ([], []) else addImage env v cap

/-- Python `f"{n:4d}"`: decimal rendering right-aligned in a minimum field
width of four. -/
def fmt4 (n : Nat) : String :=
  let s := toString n
  String.mk (List.replicate (4 - s.length) ' ') ++ s

/-- The line-numbering pass of `_add_code_block`: split on newlines, prefix
each line with its 1-based 4-wide number and two spaces, rejoin. -/
def numberedLines (code : String) : String :=
  String.intercalate "\n"
    ((code.splitOn "\n").enum.map (fun p => fmt4 (p.1 + 1) ++ "  " ++ p.2))

/-- `_add_code_block`: optional line numbering, one `Preformatted` block,
trailing spacer. -/
def addCodeBlock (code : String) (line_numbers : Bool) : List Primitive :=
  [Primitive.pre (if line_numbers then numberedLines code else code), Primitive.spacer 20]

/-- `_add_table`: a truthy header row is prepended to the data rows; one table
primitive plus trailing spacer. -/
def addTable (data : List (List String)) (headers : Option (List String)) : List Primitive :=
  let td := match headers with
    | none => data
    | some h => if h.isEmpty then data else h :: data
  [Primitive.table td, Primitive.spacer 20]

/-- `_add_content_item`: dispatch on the item's `type` string; unknown types
are silently ignored. -/
def addContentItem (env : Env) (it : ContentItem) : List Primitive × List String :=
  if it.type = "text" then
    (ifTruthy it.text (fun s => [Primitive.para s Style.body]), [])
  else if it.type = "bullet" then
    (eachItem it.items (fun b => Primitive.para ("• " ++ b) Style.bullet), [])
  else if it.type = "image" then
    imageFromRef env (pyOr it.image_path it.image_url) it.caption
  else if it.type = "code" then
    (ifTruthy it.code (fun c => addCodeBlock c false), [])
  else if it.type = "table" then
    (match it.table_data with
     | none => []
     | some d => if d.isEmpty then [] else addTable d it.table_headers, [])
  else ([], [])

/-- The content-item loop of `_add_content_page`, in input order. -/
def contentItems (env : Env) : List ContentItem → List Primitive × List String
  | [] => ([], [])
  | it :: rest =>
    let a := addContentItem env it
    let b := contentItems env rest
    (a.1 ++ b.1, a.2 ++ b.2)

/-- Description rendering shared by diagram and mermaid pages: a truthy
description gets a leading spacer, then a list renders one bullet paragraph
per entry while a string renders one body paragraph. -/
def descrAsBullets : Option Descr → List Primitive
  | none => []
  | some (Descr.str s) =>
    if s = "" then [] else [Primitive.spacer 20, Primitive.para s Style.body]
  | some (Descr.list l) =>
    if l = [] then []
    else Primitive.spacer 20 :: l.map (fun s => Primitive.para ("• " ++ s) Style.bullet)

/-- Description rendering of the image page: a list is joined with a line
break into one single body paragraph. -/
def descrAsJoined : Option Descr → List Primitive
  | none => []
  | some (Descr.str s) =>
    if s = "" then [] else [Primitive.spacer 20, Primitive.para s Style.body]
  | some (Descr.list l) =>
    if l = [] then []
    else [Primitive.spacer 20, Primitive.para (String.intercalate "\n" l) Style.body]

/-- `_add_title_page` body before the final page break, given the (set)
title. -/
def titleBody (t : String) (p : PageSpec) : List Primitive :=
  [Primitive.spacer 200, Primitive.para t Style.title]
    ++ (ifTruthy p.subtitle (fun s => [Primitive.para s Style.subtitle, Primitive.spacer 30])
    ++ (ifTruthy p.author (fun s => [Primitive.para s Style.body])
    ++ (ifTruthy p.date (fun s => [Primitive.para s Style.body])
    ++ ifTruthy p.additional_info (fun s => [Primitive.spacer 50, Primitive.para s Style.body]))))

/-- `_add_title_page` before the final page break.  `Paragraph(None)` raises,
so an unset title aborts the page (`none`). -/
def titleCore (p : PageSpec) : Option (List Primitive) :=
  p.title.map (fun t => titleBody t p)

/-- `_add_toc_page` body: defaulted heading, spacer, one bullet paragraph per
entry. -/
def tocCore (p : PageSpec) : List Primitive :=
  [Primitive.para (pyOrStr p.title "Table of Contents") Style.h1, Primitive.spacer 20]
    ++ eachItem p.entries (fun e => Primitive.para e Style.bullet)

/-- `_add_section_page` body given the (set) title: large spacer, centered
title in the title style, optional subtitle (no trailing spacer, unlike the
title page). -/
def sectBody (t : String) (p : PageSpec) : List Primitive :=
  [Primitive.spacer 250, Primitive.para t Style.title]
    ++ ifTruthy p.subtitle (fun s => [Primitive.para s Style.subtitle])

/-- `_add_section_page` before the final page break. -/
def sectCore (p : PageSpec) : Option (List Primitive) :=
  p.title.map (fun t => sectBody t p)

/-- `_add_content_page` body given the (set) title: heading, spacer, then
the content items. -/
def contentBody (env : Env) (t : String) (p : PageSpec) : List Primitive × List String :=
  let items := contentItems env (p.content.getD [])
  ([Primitive.para t Style.h1, Primitive.spacer 20] ++ items.1, items.2)

/-- `_add_content_page` before the final page break. -/
def contentCore (env : Env) (p : PageSpec) : Option (List Primitive × List String) :=
  p.title.map (fun t => contentBody env t p)

/-- `_add_code_page` body given the (set) title: heading, spacer, optional
code block (the page's `language` is passed through but unused by
`_add_code_block`). -/
def codeBody (t : String) (p : PageSpec) : List Primitive :=
  [Primitive.para t Style.h1, Primitive.spacer 20]
    ++ ifTruthy p.code (fun c => addCodeBlock c p.line_numbers)

/-- `_add_code_page` before the final page break. -/
def codeCore (p : PageSpec) : Option (List Primitive) :=
  p.title.map (fun t => codeBody t p)

/-- `_add_diagram_page` body given the (set) title: heading, spacer, image
resolved from `diagram_path or diagram_url`, description as bullets. -/
def diagramBody (env : Env) (t : String) (p : PageSpec) : List Primitive × List String :=
  let img := imageFromRef env (pyOr p.diagram_path p.diagram_url) p.caption
  ([Primitive.para t Style.h1, Primitive.spacer 20]
    ++ (img.1 ++ descrAsBullets p.description), img.2)

/-- `_add_diagram_page` before the final page break. -/
def diagramCore (env : Env) (p : PageSpec) : Option (List Primitive × List String) :=
  p.title.map (fun t => diagramBody env t p)

/-- `_add_image_page` body given the (set) title: heading, spacer, image
resolved from `image_path or image_url`, description joined into one
paragraph. -/
def imageBody (env : Env) (t : String) (p : PageSpec) : List Primitive × List String :=
  let img := imageFromRef env (pyOr p.image_path p.image_url) p.caption
  ([Primitive.para t Style.h1, Primitive.spacer 20]
    ++ (img.1 ++ descrAsJoined p.description), img.2)

/-- `_add_image_page` before the final page break. -/
def imageCore (env : Env) (p : PageSpec) : Option (List Primitive × List String) :=
  p.title.map (fun t => imageBody env t p)

/-- The mermaid segment of `_add_mermaid_page`: a truthy `mermaid_code` is
rendered; success records the raster for cleanup and embeds it through
`_add_image`; any failure (non-zero exit, timeout, missing tool) degrades to
the inline error paragraph. -/
def mermaidPart (env : Env) (p : PageSpec) : List Primitive × List String :=
  match p.mermaid_code with
  | none => ([], [])
  | some c =>
    if c = "" then ([], [])
    else
      match env.renderDiagram c with
      | MermaidOutcome.success png =>
        let img := addImage env png p.caption
        (img.1, png :: img.2)
      | _ => ([Primitive.para mermaidErrMsg Style.body], [])

/-- `_add_mermaid_page` body given the (set) title: heading, spacer, mermaid
segment, description as bullets. -/
def mermaidBody (env : Env) (t : String) (p : PageSpec) : List Primitive × List String :=
  let mer := mermaidPart env p
  ([Primitive.para t Style.h1, Primitive.spacer 20]
    ++ (mer.1 ++ descrAsBullets p.description), mer.2)

/-- `_add_mermaid_page` before the final page break. -/
def mermaidCore (env : Env) (p : PageSpec) : Option (List Primitive × List String) :=
  p.title.map (fun t => mermaidBody env t p)

/-- `_add_summary_page` body: defaulted heading, spacer, bullet key points,
optional spacer plus conclusion paragraph. -/
def summaryCore (p : PageSpec) : List Primitive :=
  [Primitive.para (pyOrStr p.title "Summary") Style.h1, Primitive.spacer 20]
    ++ (eachItem p.key_points (fun s => Primitive.para ("• " ++ s) Style.bullet)
    ++ ifTruthy p.conclusion (fun c => [Primitive.spacer 30, Primitive.para c Style.body]))

/-- The reference loop of `_add_references_page`: `enumerate(refs, 1)` with
the per-style prefix; any style other than numbered or bulleted is plain. -/
def refsList (refs : Option (List String)) (style : String) : List Primitive :=
  match refs with
  | none => []
  | some l =>
    l.enum.map (fun p =>
      if style = "numbered" then Primitive.para (toString (p.1 + 1) ++ ". " ++ p.2) Style.body
      else if style = "bulleted" then Primitive.para ("• " ++ p.2) Style.bullet
      else Primitive.para p.2 Style.body)

/-- `_add_references_page` body. -/
def referencesCore (p : PageSpec) : List Primitive :=
  [Primitive.para (pyOrStr p.title "References") Style.h1, Primitive.spacer 20]
    ++ refsList p.references p.style

/-- Per-kind page body (primitives and recorded temp files) before the final
page break, `none` when the composer raises. -/
def pageCore (env : Env) (p : PageSpec) : Option (List Primitive × List String) :=
  match p.page_type with
  | PageType.title => (titleCore p).map (fun c => (c, []))
  | PageType.toc => some (tocCore p, [])
  | PageType.sect => (sectCore p).map (fun c => (c, []))
  | PageType.content => contentCore env p
  | PageType.code => (codeCore p).map (fun c => (c, []))
  | PageType.diagram => diagramCore env p
  | PageType.image => imageCore env p
  | PageType.mermaid => mermaidCore env p
  | PageType.summary => some (summaryCore p, [])
  | PageType.references => some (referencesCore p, [])

/-- `_generate_page`: the per-kind body followed by the one
`self.story.append(PageBreak())` every composer ends with. -/
def generatePage (env : Env) (p : PageSpec) : Option (List Primitive × List String) :=
  (pageCore env p).map (fun c => (c.1 ++ [Primitive.pageBreak], c.2))

/-- Outcome of the page loop of `generate_pdf`: either every page composed
(`ok`), or some page raised (`failed`), in both cases with the primitives and
temp files already accumulated by the successfully composed pages (a raising
page contributes no temp files: the title paragraph that can raise precedes
all asset work). -/
inductive ComposeResult where
  | ok (story : List Primitive) (downloads : List String)
  | failed (story : List Primitive) (downloads : List String)
deriving DecidableEq, Repr

/-- The `for page in doc_spec.pages` loop with its re-raising `except`. -/
def composePages (env : Env) : List PageSpec → ComposeResult
  | [] => ComposeResult.ok [] []
  | p :: rest =>
    match generatePage env p with
    | none => ComposeResult.failed [] []
    | some pr =>
      match composePages env rest with
      | ComposeResult.ok s d => ComposeResult.ok (pr.1 ++ s) (pr.2 ++ d)
      | ComposeResult.failed s d => ComposeResult.failed (pr.1 ++ s) (pr.2 ++ d)

/-- Whether the page loop completed. -/
def ComposeResult.isOk : ComposeResult → Bool
  | ComposeResult.ok _ _ => true
  | ComposeResult.failed _ _ => false

/-- The advisory message attached when the requested directory fell back. -/
def fallbackMessage (requested fallback : String) : String :=
  "Note: Saved to " ++ fallback ++ " (requested directory " ++ requested
    ++ " was not accessible)"

/-- Output directory resolution of `generate_pdf` (lines 62-100): the
requested directory is created if absent then write-probed; on any failure
the configured fallback directory is created if absent (no write probe) and
an advisory message recorded; if that also fails, `RuntimeError`. -/
def resolveOutputDir (env : Env) (requested fallback : String) :
    Except String (String × Option String) :=
  if (if env.dirExists requested then true else env.mkdirOk requested)
      && env.probeOk requested then
    Except.ok (requested, none)
  else if (if env.dirExists fallback then true else env.mkdirOk fallback) then
    Except.ok (fallback, some (fallbackMessage requested fallback))
  else
    Except.error ("Cannot write to requested directory '" ++ requested
      ++ "' or fallback directory '" ++ fallback
      ++ "'. Please check permissions and configuration.")

/-- Wall-clock instant for `datetime.now()`. -/
structure DateTime where
  year : Nat
  month : Nat
  day : Nat
  hour : Nat
  minute : Nat
  second : Nat
deriving DecidableEq, Repr

/-- Zero-pad to two digits (`%m`, `%d`, `%H`, `%M`, `%S`). -/
def pad2 (n : Nat) : String :=
  if n < 10 then "0" ++ toString n else toString n

/-- Zero-pad to four digits (`%Y`). -/
def pad4 (n : Nat) : String :=
  if n < 10 then "000" ++ toString n
  else if n < 100 then "00" ++ toString n
  else if n < 1000 then "0" ++ toString n
  else toString n

/-- `datetime.now().strftime("%Y%m%d_%H%M%S")`: a second-resolution
timestamp. -/
def timestampOf (t : DateTime) : String :=
  pad4 t.year ++ pad2 t.month ++ pad2 t.day ++ "_"
    ++ pad2 t.hour ++ pad2 t.minute ++ pad2 t.second

/-- One character of the title sanitizer: alphanumerics, space, hyphen and
underscore pass through, every other character becomes an underscore. -/
def sanitizeChar (c : Char) : Char :=
  if c.isAlphanum || c = ' ' || c = '-' || c = '_' then c else '_'

/-- `safe_title` computation of `generate_pdf` (lines 107-108) on a character
list: sanitize, replace each space with an underscore (`.replace(' ', '_')`
is a single-character substitution), lower-case. -/
def safeTitleChars (cs : List Char) : List Char :=
  (((cs.map sanitizeChar).map (fun c => if c = ' ' then '_' else c)).map Char.toLower)

/-- `safe_title` on a string. -/
def safeTitle (title : String) : String :=
  String.mk (safeTitleChars title.data)

/-- The auto-generated filename `f"{safe_title}_{timestamp}.pdf"`. -/
def deriveFilename (title timestamp : String) : String :=
  safeTitle title ++ "_" ++ timestamp ++ ".pdf"

/-- Filename resolution of `generate_pdf` (lines 102-110): a truthy explicit
filename wins, otherwise the title-derived name. -/
def resolveFilename (explicit : Option String) (title timestamp : String) : String :=
  match explicit with
  | none => deriveFilename title timestamp
  | some f => if f = "" then deriveFilename title timestamp else f

/-- The success dictionary returned by `generate_pdf`. -/
structure GenResult where
  output : String
  pages_generated : Nat
  filename : String
  message : Option String
deriving DecidableEq, Repr

/-- `DocumentSpec` restricted to what `generate_pdf` consumes (the resolved
theme only feeds the style table, which the `Style` roles abstract). -/
structure DocumentSpec where
  title : String
  theme : ThemeSpec := {}
  pages : List PageSpec
  output_filename : Option String := none
  output_directory : String
deriving Repr

/-- Observable outcome of one `generate_pdf` call: the returned dictionary or
the propagated exception, the story handed to `doc.build`, the
`downloaded_images` list as the call exits, and the temp files the run's
cleanup actually removed. -/
structure RunOutcome where
  result : Except String GenResult
  story : List Primitive
  tracked : List String
  deleted : List String
deriving Repr

/-- `_cleanup_downloaded_images` removes the files that still exist and whose
unlink succeeds (each deletion independently best-effort). -/
def cleanupRemoved (env : Env) (tracked : List String) : List String :=
  tracked.filter (fun p => env.fileExists p && env.deleteOk p)

/-- `generate_pdf` (pdf_generator.py lines 46-157) against an environment, a
configured fallback directory, the current time, and the
`downloaded_images` list the generator instance already carries (the list is
instance state and is not reset at the start of a run).  Directory
resolution first (a failure there propagates with nothing composed); then
filename resolution; then the page loop — a raising page propagates
immediately and `_cleanup_downloaded_images` is never reached; on success
the cleanup drains the accumulated list and the result dictionary carries
the advisory message exactly when the directory fell back. -/
def generatePdf (env : Env) (fallbackDir : String) (now : DateTime)
    (tracked0 : List String) (doc : DocumentSpec) : RunOutcome :=
  match resolveOutputDir env doc.output_directory fallbackDir with
  | Except.error e =>
    { result := Except.error e, story := [], tracked := tracked0, deleted := [] }
  | Except.ok dm =>
    let filename := resolveFilename doc.output_filename doc.title (timestampOf now)
    match composePages env doc.pages with
    | ComposeResult.failed s d =>
      { result := Except.error "page generation raised", story := s,
        tracked := tracked0 ++ d, deleted := [] }
    | ComposeResult.ok s d =>
      let tracked := tracked0 ++ d
      { result := Except.ok
          { output := dm.1 ++ "/" ++ filename,
            pages_generated := doc.pages.length,
            filename := filename,
            message := dm.2 },
        story := s,
        tracked := [],
        deleted := cleanupRemoved env tracked }

/-- The claim-as-written filename sanitizer: KEEP alphanumerics, spaces,
hyphens and underscores (dropping every other character), then map spaces to
underscores and lower-case.  Stated from the spec sentence "derive from the
title by keeping alphanumerics, spaces, hyphens, and underscores, collapsing
spaces to underscores, lower-casing"; compared against the source-derived
`safeTitle`. -/
def specSafeTitleChars (cs : List Char) : List Char :=
  (((cs.filter (fun c => c.isAlphanum || c = ' ' || c = '-' || c = '_')).map
      (fun c => if c = ' ' then '_' else c)).map Char.toLower)

/-- The claim-as-written derived filename. -/
def specDeriveFilename (title timestamp : String) : String :=
  String.mk (specSafeTitleChars title.data) ++ "_" ++ timestamp ++ ".pdf"

/-- One-pass characterization of the source's sanitizer (for the amended
claim): an alphanumeric is lower-cased and kept, a space becomes an
underscore, a hyphen and an underscore pass through, and every OTHER
character is REPLACED by an underscore (not dropped). -/
def amendedSanitizeChar (c : Char) : Char :=
  if c.isAlphanum then c.toLower
  else if c = ' ' then '_'
  else if c = '-' then '-'
  else '_'

/-- The amended-claim derived filename. -/
def amendedDeriveFilename (title timestamp : String) : String :=
  String.mk (title.data.map amendedSanitizeChar) ++ "_" ++ timestamp ++ ".pdf"

/-- Spec-side characterization of the requested-directory branch of
`resolveOutputDir` succeeding: the create step (skipped when the directory
exists) and then the write probe. -/
def dirUsable (env : Env) (d : String) : Bool :=
  (env.dirExists d || env.mkdirOk d) && env.probeOk d

/-- Spec-side characterization of the fallback branch succeeding: only the
create step is repeated (no write probe on the fallback). -/
def fallbackCreateOk (env : Env) (d : String) : Bool :=
  env.dirExists d || env.mkdirOk d

/-- A benign concrete environment (everything writable and existing, no
network, diagram rendering fails with a non-zero exit) used to instantiate
hypotheses of the theorems at concrete inputs. -/
def env0 : Env where
  dirExists := fun _ => true
  mkdirOk := fun _ => true
  probeOk := fun _ => true
  fileExists := fun _ => true
  download := fun _ => none
  renderDiagram := fun _ => MermaidOutcome.exitFailure
  deleteOk := fun _ => true

/-- A concrete environment whose diagram renderer succeeds with the raster
`/tmp/m.png` (used to exercise the cleanup-tracking paths). -/
def envRender : Env where
  dirExists := fun _ => true
  mkdirOk := fun _ => true
  probeOk := fun _ => true
  fileExists := fun _ => true
  download := fun _ => none
  renderDiagram := fun _ => MermaidOutcome.success "/tmp/m.png"
  deleteOk := fun _ => true

/-- A concrete environment where the requested directory cannot be created
or written but the fallback can. -/
def envNoReq : Env where
  dirExists := fun d => d ≠ "/blocked"
  mkdirOk := fun d => d ≠ "/blocked"
  probeOk := fun d => d ≠ "/blocked"
  fileExists := fun _ => true
  download := fun _ => none
  renderDiagram := fun _ => MermaidOutcome.exitFailure
  deleteOk := fun _ => true

/-- Concrete instant used when a theorem is instantiated at a concrete run
(2026-01-09 12:00:00, timestamp `20260109_120000`). -/
def dt0 : DateTime := ⟨2026, 1, 9, 12, 0, 0⟩

/-- A one-page document (a toc page), used to instantiate theorems about
successful runs. -/
def docToc : DocumentSpec where
  title := "T"
  pages := [{ page_type := PageType.toc }]
  output_directory := "/out"

/-- A document whose first page renders a mermaid diagram successfully
(accumulating the temp raster `/tmp/m.png` in the cleanup list) and whose
second page is a title page with `title` unset, which raises. -/
def docRenderThenFail : DocumentSpec where
  title := "T"
  pages := [{ page_type := PageType.mermaid, title := some "D",
              mermaid_code := some "graph TD" },
            { page_type := PageType.title }]
  output_directory := "/out"

/-! ## Helper lemmas: no page composer emits a page break inside its body -/

theorem no_pb_append {l₁ l₂ : List Primitive} (h₁ : Primitive.pageBreak ∉ l₁)
    (h₂ : Primitive.pageBreak ∉ l₂) : Primitive.pageBreak ∉ l₁ ++ l₂ := by
  intro h
  exact (List.mem_append.mp h).elim h₁ h₂

theorem ifTruthy_no_pb (x : Option String) (f : String → List Primitive)
    (hf : ∀ s, Primitive.pageBreak ∉ f s) : Primitive.pageBreak ∉ ifTruthy x f := by
  cases x with
  | none => simp [ifTruthy]
  | some s =>
    by_cases h : s = ""
    · simp [ifTruthy, h]
    · simpa [ifTruthy, h] using hf s

theorem eachItem_no_pb (xs : Option (List String)) (f : String → Primitive)
    (hf : ∀ s, f s ≠ Primitive.pageBreak) : Primitive.pageBreak ∉ eachItem xs f := by
  intro h
  rcases List.mem_map.mp h with ⟨s, _, hs⟩
  exact hf s hs

theorem imageAt_no_pb (env : Env) (actual orig : String) (cap : Option String) :
    Primitive.pageBreak ∉ imageAt env actual orig cap := by
  unfold imageAt
  split
  · exact no_pb_append (by simp) (ifTruthy_no_pb _ _ (fun s => by simp))
  · simp

theorem addImage_no_pb (env : Env) (pth : String) (cap : Option String) :
    Primitive.pageBreak ∉ (addImage env pth cap).1 := by
  unfold addImage
  split
  · cases env.download pth <;> simp [imageAt_no_pb]
  · simpa using imageAt_no_pb env pth pth cap

theorem imageFromRef_no_pb (env : Env) (ref : Option String) (cap : Option String) :
    Primitive.pageBreak ∉ (imageFromRef env ref cap).1 := by
  cases ref with
  | none => simp [imageFromRef]
  | some v =>
    by_cases h : v = "" <;> simp [imageFromRef, h, addImage_no_pb]

theorem addCodeBlock_no_pb (code : String) (ln : Bool) :
    Primitive.pageBreak ∉ addCodeBlock code ln := by
  simp [addCodeBlock]

theorem addTable_no_pb (data : List (List String)) (headers : Option (List String)) :
    Primitive.pageBreak ∉ addTable data headers := by
  simp [addTable]

theorem addContentItem_no_pb (env : Env) (it : ContentItem) :
    Primitive.pageBreak ∉ (addContentItem env it).1 := by
  unfold addContentItem
  split
  · exact ifTruthy_no_pb _ _ (fun s => by simp)
  · split
    · exact eachItem_no_pb _ _ (fun s => by simp)
    · split
      · exact imageFromRef_no_pb _ _ _
      · split
        · exact ifTruthy_no_pb _ _ (fun s => addCodeBlock_no_pb s false)
        · split
          · cases hd : it.table_data with
            | none => simp
            | some d =>
              by_cases h : d.isEmpty <;> simp [h, addTable_no_pb]
          · simp

theorem contentItems_no_pb (env : Env) (l : List ContentItem) :
    Primitive.pageBreak ∉ (contentItems env l).1 := by
  induction l with
  | nil => simp [contentItems]
  | cons it rest ih =>
    exact no_pb_append (addContentItem_no_pb env it) ih

theorem descrAsBullets_no_pb (d : Option Descr) :
    Primitive.pageBreak ∉ descrAsBullets d := by
  match d with
  | none => simp [descrAsBullets]
  | some (Descr.str s) =>
    by_cases h : s = "" <;> simp [descrAsBullets, h]
  | some (Descr.list l) =>
    by_cases h : l = [] <;> simp [descrAsBullets, h]

theorem descrAsJoined_no_pb (d : Option Descr) :
    Primitive.pageBreak ∉ descrAsJoined d := by
  match d with
  | none => simp [descrAsJoined]
  | some (Descr.str s) =>
    by_cases h : s = "" <;> simp [descrAsJoined, h]
  | some (Descr.list l) =>
    by_cases h : l = [] <;> simp [descrAsJoined, h]

theorem mermaidPart_no_pb (env : Env) (p : PageSpec) :
    Primitive.pageBreak ∉ (mermaidPart env p).1 := by
  unfold mermaidPart
  cases p.mermaid_code with
  | none => simp
  | some c =>
    by_cases h : c = ""
    · simp [h]
    · simp only [if_neg h]
      cases env.renderDiagram c <;> simp [addImage_no_pb]

theorem refsList_no_pb (refs : Option (List String)) (style : String) :
    Primitive.pageBreak ∉ refsList refs style := by
  cases refs with
  | none => simp [refsList]
  | some l =>
    intro h
    rcases List.mem_map.mp h with ⟨pr, _, hpr⟩
    split at hpr
    · simp at hpr
    · split at hpr <;> simp at hpr

theorem titleBody_no_pb (t : String) (p : PageSpec) :
    Primitive.pageBreak ∉ titleBody t p :=
  no_pb_append (by simp)
    (no_pb_append (ifTruthy_no_pb _ _ (fun s => by simp))
      (no_pb_append (ifTruthy_no_pb _ _ (fun s => by simp))
        (no_pb_append (ifTruthy_no_pb _ _ (fun s => by simp))
          (ifTruthy_no_pb _ _ (fun s => by simp)))))

theorem tocCore_no_pb (p : PageSpec) : Primitive.pageBreak ∉ tocCore p :=
  no_pb_append (by simp) (eachItem_no_pb _ _ (fun s => by simp))

theorem sectBody_no_pb (t : String) (p : PageSpec) :
    Primitive.pageBreak ∉ sectBody t p :=
  no_pb_append (by simp) (ifTruthy_no_pb _ _ (fun s => by simp))

theorem contentBody_no_pb (env : Env) (t : String) (p : PageSpec) :
    Primitive.pageBreak ∉ (contentBody env t p).1 :=
  no_pb_append (by simp) (contentItems_no_pb env _)

theorem codeBody_no_pb (t : String) (p : PageSpec) :
    Primitive.pageBreak ∉ codeBody t p :=
  no_pb_append (by simp) (ifTruthy_no_pb _ _ (fun s => addCodeBlock_no_pb s _))

theorem diagramBody_no_pb (env : Env) (t : String) (p : PageSpec) :
    Primitive.pageBreak ∉ (diagramBody env t p).1 :=
  no_pb_append (by simp)
    (no_pb_append (imageFromRef_no_pb _ _ _) (descrAsBullets_no_pb _))

theorem imageBody_no_pb (env : Env) (t : String) (p : PageSpec) :
    Primitive.pageBreak ∉ (imageBody env t p).1 :=
  no_pb_append (by simp)
    (no_pb_append (imageFromRef_no_pb _ _ _) (descrAsJoined_no_pb _))

theorem mermaidBody_no_pb (env : Env) (t : String) (p : PageSpec) :
    Primitive.pageBreak ∉ (mermaidBody env t p).1 :=
  no_pb_append (by simp)
    (no_pb_append (mermaidPart_no_pb _ _) (descrAsBullets_no_pb _))

theorem summaryCore_no_pb (p : PageSpec) : Primitive.pageBreak ∉ summaryCore p :=
  no_pb_append (by simp)
    (no_pb_append (eachItem_no_pb _ _ (fun s => by simp))
      (ifTruthy_no_pb _ _ (fun s => by simp)))

theorem referencesCore_no_pb (p : PageSpec) : Primitive.pageBreak ∉ referencesCore p :=
  no_pb_append (by simp) (refsList_no_pb _ _)

theorem pageCore_no_pb (env : Env) (p : PageSpec) (c : List Primitive) (d : List String)
    (h : pageCore env p = some (c, d)) : Primitive.pageBreak ∉ c := by
  cases hpt : p.page_type <;> simp only [pageCore, hpt] at h
  case title =>
    cases ht : p.title <;>
      simp only [titleCore, ht, Option.map_none', Option.map_some',
        Option.some.injEq, Prod.mk.injEq, reduceCtorEq] at h
    rcases h with ⟨h1, _⟩
    rw [← h1]
    exact titleBody_no_pb _ p
  case toc =>
    simp only [Option.some.injEq, Prod.mk.injEq] at h
    rw [← h.1]
    exact tocCore_no_pb p
  case sect =>
    cases ht : p.title <;>
      simp only [sectCore, ht, Option.map_none', Option.map_some',
        Option.some.injEq, Prod.mk.injEq, reduceCtorEq] at h
    rw [← h.1]
    exact sectBody_no_pb _ p
  case content =>
    cases ht : p.title <;>
      simp only [contentCore, ht, Option.map_none', Option.map_some',
        Option.some.injEq, reduceCtorEq] at h
    have h1 : (contentBody env _ p).1 = c := congrArg Prod.fst h
    rw [← h1]
    exact contentBody_no_pb env _ p
  case code =>
    cases ht : p.title <;>
      simp only [codeCore, ht, Option.map_none', Option.map_some',
        Option.some.injEq, Prod.mk.injEq, reduceCtorEq] at h
    rw [← h.1]
    exact codeBody_no_pb _ p
  case diagram =>
    cases ht : p.title <;>
      simp only [diagramCore, ht, Option.map_none', Option.map_some',
        Option.some.injEq, reduceCtorEq] at h
    have h1 : (diagramBody env _ p).1 = c := congrArg Prod.fst h
    rw [← h1]
    exact diagramBody_no_pb env _ p
  case image =>
    cases ht : p.title <;>
      simp only [imageCore, ht, Option.map_none', Option.map_some',
        Option.some.injEq, reduceCtorEq] at h
    have h1 : (imageBody env _ p).1 = c := congrArg Prod.fst h
    rw [← h1]
    exact imageBody_no_pb env _ p
  case mermaid =>
    cases ht : p.title <;>
      simp only [mermaidCore, ht, Option.map_none', Option.map_some',
        Option.some.injEq, reduceCtorEq] at h
    have h1 : (mermaidBody env _ p).1 = c := congrArg Prod.fst h
    rw [← h1]
    exact mermaidBody_no_pb env _ p
  case summary =>
    simp only [Option.some.injEq, Prod.mk.injEq] at h
    rw [← h.1]
    exact summaryCore_no_pb p
  case references =>
    simp only [Option.some.injEq, Prod.mk.injEq] at h
    rw [← h.1]
    exact referencesCore_no_pb p

/-- Every successfully composed page is its body followed by exactly the one
final page break. -/
theorem generatePage_shape (env : Env) (p : PageSpec) (prims : List Primitive)
    (d : List String) (h : generatePage env p = some (prims, d)) :
    ∃ core, prims = core ++ [Primitive.pageBreak] ∧ Primitive.pageBreak ∉ core := by
  unfold generatePage at h
  cases hc : pageCore env p with
  | none => rw [hc] at h; simp at h
  | some cd =>
    rw [hc] at h
    simp only [Option.map_some', Option.some.injEq, Prod.mk.injEq] at h
    exact ⟨cd.1, h.1.symm, pageCore_no_pb env p cd.1 cd.2 hc⟩

/-- Decomposition of a completed page loop: the final story is the
concatenation, in input order, of one primitive group per input page. -/
theorem composePages_ok_structure (env : Env) (pages : List PageSpec)
    (story : List Primitive) (dls : List String)
    (h : composePages env pages = ComposeResult.ok story dls) :
    ∃ groups : List (List Primitive),
      story = groups.flatten ∧
      List.Forall₂ (fun p g => ∃ d, generatePage env p = some (g, d)) pages groups := by
  induction pages generalizing story dls with
  | nil =>
    simp only [composePages, ComposeResult.ok.injEq] at h
    exact ⟨[], by simp [← h.1], List.Forall₂.nil⟩
  | cons p rest ih =>
    simp only [composePages] at h
    cases hg : generatePage env p with
    | none => rw [hg] at h; exact absurd h (by simp)
    | some pr =>
      rw [hg] at h
      cases hr : composePages env rest with
      | failed s d => rw [hr] at h; exact absurd h (by simp)
      | ok s d =>
        rw [hr] at h
        simp only [ComposeResult.ok.injEq] at h
        rcases ih s d hr with ⟨groups, hjoin, hall⟩
        refine ⟨pr.1 :: groups, ?_, List.Forall₂.cons ⟨pr.2, by rw [hg]⟩ hall⟩
        rw [← h.1, List.flatten_cons, hjoin]

/-- C1: For every DocumentSpec whose pages all compose, the output stream is
the concatenation, in input order, of one primitive group per page; each
group is nonempty, ends with a page break, and contains exactly one page
break; hence the stream holds exactly N page breaks for N pages. -/
theorem C1_page_breaks_and_order (env : Env) (pages : List PageSpec)
    (story : List Primitive) (dls : List String)
    (h : composePages env pages = ComposeResult.ok story dls) :
    story.count Primitive.pageBreak = pages.length ∧
    ∃ groups : List (List Primitive),
      story = groups.flatten ∧
      List.Forall₂ (fun p g => ∃ d, generatePage env p = some (g, d)) pages groups ∧
      ∀ g ∈ groups, g ≠ [] ∧ g.getLast? = some Primitive.pageBreak ∧
        g.count Primitive.pageBreak = 1 := by
  rcases composePages_ok_structure env pages story dls h with ⟨groups, hjoin, hall⟩
  have hshape : ∀ g ∈ groups, ∃ core, g = core ++ [Primitive.pageBreak] ∧
      Primitive.pageBreak ∉ core := by
    clear hjoin h
    induction hall with
    | nil => intro g hg; exact absurd hg (by simp)
    | cons hR _ ih =>
      intro g hgmem
      rcases List.mem_cons.mp hgmem with rfl | hgm
      · rcases hR with ⟨d, hd⟩
        exact generatePage_shape _ _ _ _ hd
      · exact ih g hgm
  have hper : ∀ g ∈ groups, g ≠ [] ∧ g.getLast? = some Primitive.pageBreak ∧
      g.count Primitive.pageBreak = 1 := by
    intro g hgmem
    rcases hshape g hgmem with ⟨core, rfl, hnmem⟩
    refine ⟨by simp, ?_, ?_⟩
    · rw [List.getLast?_concat]
    · rw [List.count_append]
      simp [List.count_eq_zero.mpr hnmem]
  have hcount : ∀ gs : List (List Primitive),
      (∀ g ∈ gs, g.count Primitive.pageBreak = 1) →
      gs.flatten.count Primitive.pageBreak = gs.length := by
    intro gs
    induction gs with
    | nil => intro _; simp
    | cons a l ihl =>
      intro hmem
      rw [List.flatten_cons, List.count_append,
        hmem a (List.mem_cons_self a l),
        ihl (fun g hg => hmem g (List.mem_cons_of_mem _ hg))]
      simp [Nat.add_comm]
  refine ⟨?_, groups, hjoin, hall, hper⟩
  rw [hjoin, hcount groups (fun g hg => (hper g hg).2.2), hall.length_eq]

/-- Witness for C1: a one-page document (a toc page) composes to a story
with exactly one page break, via `C1_page_breaks_and_order`. -/
theorem C1_witness :
    composePages env0 [{ page_type := PageType.toc }] =
      ComposeResult.ok [Primitive.para "Table of Contents" Style.h1,
        Primitive.spacer 20, Primitive.pageBreak] [] ∧
    ([Primitive.para "Table of Contents" Style.h1, Primitive.spacer 20,
        Primitive.pageBreak].count Primitive.pageBreak = 1) :=
  ⟨rfl, (C1_page_breaks_and_order env0 [{ page_type := PageType.toc }] _ _ rfl).1⟩

/-- C2 (amended): on a run whose page loop completes, the cleanup list
(including files left over from earlier runs of the same generator instance)
is drained — emptied, with each tracked file deleted best-effort (a failed
deletion is skipped, not propagated); on a run where a page raises, the
exception propagates before cleanup, so nothing is deleted and the
accumulated list persists on the instance. -/
theorem C2_cleanup_amended (env : Env) (fb : String) (now : DateTime)
    (tracked0 : List String) (doc : DocumentSpec)
    (dm : String × Option String)
    (hdir : resolveOutputDir env doc.output_directory fb = Except.ok dm) :
    (∀ s d, composePages env doc.pages = ComposeResult.ok s d →
        (generatePdf env fb now tracked0 doc).tracked = [] ∧
        (generatePdf env fb now tracked0 doc).deleted =
          (tracked0 ++ d).filter (fun q => env.fileExists q && env.deleteOk q)) ∧
    (∀ s d, composePages env doc.pages = ComposeResult.failed s d →
        (generatePdf env fb now tracked0 doc).deleted = [] ∧
        (generatePdf env fb now tracked0 doc).tracked = tracked0 ++ d) := by
  constructor <;> intro s d hc <;>
    simp [generatePdf, hdir, hc, cleanupRemoved]

/-- Witness for the amended C2 at a concrete successful run: a leftover file
from an earlier run is drained from the tracking list. -/
theorem C2_cleanup_amended_witness :
    resolveOutputDir env0 "/out" "/fb" = Except.ok ("/out", none) ∧
    (generatePdf env0 "/fb" dt0 ["/tmp/x.png"] docToc).tracked = [] := by
  refine ⟨rfl, ?_⟩
  have h := (C2_cleanup_amended env0 "/fb" dt0 ["/tmp/x.png"] docToc
    ("/out", none) rfl).1
  exact (h _ _ rfl).1

/-- C2 counterexample: a run that downloads/renders a temp file and then has
a page raise ends with the temp file still tracked and nothing deleted —
cleanup is NOT performed on a failed run, contradicting "drained exactly
once per run regardless of whether the run succeeded or a page failed". -/
theorem C2_counterexample :
    (generatePdf envRender "/fb" dt0 [] docRenderThenFail).tracked = ["/tmp/m.png"] ∧
    (generatePdf envRender "/fb" dt0 [] docRenderThenFail).deleted = [] ∧
    (generatePdf envRender "/fb" dt0 [] docRenderThenFail).result =
      Except.error "page generation raised" :=
  ⟨rfl, rfl, rfl⟩

/-- Pointwise fusion of the source's three character passes (sanitize, then
space to underscore, then lower-case) into `amendedSanitizeChar`. -/
theorem sanitize_pointwise (c : Char) :
    Char.toLower (if sanitizeChar c = ' ' then '_' else sanitizeChar c) =
      amendedSanitizeChar c := by
  unfold sanitizeChar amendedSanitizeChar
  by_cases h1 : c.isAlphanum
  · have hns : c ≠ ' ' := by
      intro h
      rw [h] at h1
      exact absurd h1 (by decide)
    simp [h1, hns]
  · by_cases h2 : c = ' '
    · subst h2; rfl
    · by_cases h3 : c = '-'
      · subst h3; rfl
      · by_cases h4 : c = '_'
        · subst h4; rfl
        · simp [h1, h2, h3, h4]

/-- The source's `safe_title` equals the one-pass amended characterization. -/
theorem safeTitle_eq_amended (title : String) :
    safeTitle title = String.mk (title.data.map amendedSanitizeChar) := by
  unfold safeTitle safeTitleChars
  rw [List.map_map, List.map_map]
  congr 1
  refine List.map_congr_left (fun c _ => ?_)
  exact sanitize_pointwise c

/-- C3 (amended): a supplied (truthy) explicit filename is used as-is;
otherwise the filename is the title with alphanumerics lower-cased, spaces
and every character outside the keep-set REPLACED by underscores (hyphens
and underscores kept), then an underscore, the second-resolution timestamp,
and the `.pdf` extension. -/
theorem C3_filename_amended (explicit : Option String) (title : String) (t : DateTime) :
    (∀ f, explicit = some f → f ≠ "" →
        resolveFilename explicit title (timestampOf t) = f) ∧
    (explicit = none →
        resolveFilename explicit title (timestampOf t) =
          amendedDeriveFilename title (timestampOf t)) := by
  constructor
  · intro f hf hne
    subst hf
    simp [resolveFilename, hne]
  · intro h
    subst h
    simp only [resolveFilename, deriveFilename, amendedDeriveFilename,
      safeTitle_eq_amended]

/-- Witness for the amended C3: both branches at concrete inputs. -/
theorem C3_filename_amended_witness :
    resolveFilename (some "x.pdf") "T" (timestampOf dt0) = "x.pdf" ∧
    resolveFilename none "A B" (timestampOf dt0) =
      amendedDeriveFilename "A B" (timestampOf dt0) :=
  ⟨(C3_filename_amended (some "x.pdf") "T" dt0).1 "x.pdf" rfl (by decide),
   (C3_filename_amended none "A B" dt0).2 rfl⟩

/-- C3 counterexample: for the title `"a.b"` the source REPLACES the dot
with an underscore (`a_b_...`), while the claim's keep-list reading drops it
(`ab_...`). -/
theorem C3_counterexample :
    resolveFilename none "a.b" (timestampOf dt0) = "a_b_20260109_120000.pdf" ∧
    specDeriveFilename "a.b" (timestampOf dt0) = "ab_20260109_120000.pdf" ∧
    resolveFilename none "a.b" (timestampOf dt0) ≠
      specDeriveFilename "a.b" (timestampOf dt0) := by
  refine ⟨rfl, rfl, ?_⟩
  decide

/-- `resolveOutputDir` as a two-level decision on the spec-side predicates
`dirUsable` (create step plus write probe) and `fallbackCreateOk` (create
step only). -/
theorem resolveOutputDir_eq (env : Env) (req fb : String) :
    resolveOutputDir env req fb =
      if dirUsable env req then Except.ok (req, none)
      else if fallbackCreateOk env fb then
        Except.ok (fb, some (fallbackMessage req fb))
      else
        Except.error ("Cannot write to requested directory '" ++ req
          ++ "' or fallback directory '" ++ fb
          ++ "'. Please check permissions and configuration.") := by
  unfold resolveOutputDir dirUsable fallbackCreateOk
  cases env.dirExists req <;> cases env.dirExists fb <;> simp

/-- The advisory message is never the empty string. -/
theorem fallbackMessage_ne_empty (req fb : String) : fallbackMessage req fb ≠ "" := by
  unfold fallbackMessage
  intro h
  have hlen := congrArg String.length h
  simp [String.length_append] at hlen
  exact absurd hlen.1.1.1.1 (by decide)

/-- C4: a usable requested directory is used with no advisory message; an
unusable requested directory falls back to the configured default (repeating
only the create step), attaching a non-empty advisory message; if the
fallback create step also fails the run fails fatally; and a successful
run's result carries a message exactly when the requested directory was not
usable. -/
theorem C4_directory_fallback (env : Env) (req fb : String) (now : DateTime)
    (tracked0 : List String) (doc : DocumentSpec) :
    (dirUsable env req = true →
        resolveOutputDir env req fb = Except.ok (req, none)) ∧
    (dirUsable env req = false → fallbackCreateOk env fb = true →
        resolveOutputDir env req fb =
          Except.ok (fb, some (fallbackMessage req fb)) ∧
        fallbackMessage req fb ≠ "") ∧
    (dirUsable env req = false → fallbackCreateOk env fb = false →
        ∃ e, resolveOutputDir env req fb = Except.error e) ∧
    (∀ r, (generatePdf env fb now tracked0 doc).result = Except.ok r →
        ((r.message ≠ none ↔ dirUsable env doc.output_directory = false) ∧
         ∀ m, r.message = some m → m ≠ "")) := by
  refine ⟨?_, ?_, ?_, ?_⟩
  · intro h
    rw [resolveOutputDir_eq, if_pos h]
  · intro h1 h2
    rw [resolveOutputDir_eq, if_neg (by simp [h1]), if_pos h2]
    exact ⟨rfl, fallbackMessage_ne_empty req fb⟩
  · intro h1 h2
    rw [resolveOutputDir_eq, if_neg (by simp [h1]), if_neg (by simp [h2])]
    exact ⟨_, rfl⟩
  · intro r hr
    unfold generatePdf at hr
    rw [resolveOutputDir_eq] at hr
    by_cases hd : dirUsable env doc.output_directory = true
    · rw [if_pos hd] at hr
      cases hc : composePages env doc.pages <;> rw [hc] at hr <;>
        simp only [] at hr
      · rcases hr with ⟨rfl⟩
        simp [hd]
      · exact absurd hr (by simp)
    · rw [if_neg hd] at hr
      by_cases hf : fallbackCreateOk env fb = true
      · rw [if_pos hf] at hr
        cases hc : composePages env doc.pages <;> rw [hc] at hr <;>
          simp only [] at hr
        · rcases hr with ⟨rfl⟩
          refine ⟨by simpa using hd, ?_⟩
          intro m hm
          simp only [Option.some.injEq] at hm
          rw [← hm]
          exact fallbackMessage_ne_empty _ _
        · exact absurd hr (by simp)
      · rw [if_neg hf] at hr
        exact absurd hr (by simp)

/-- Witness for C4: a requested directory that cannot be created or written
falls back, with the advisory message attached. -/
theorem C4_witness :
    dirUsable envNoReq "/blocked" = false ∧
    fallbackCreateOk envNoReq "/fb" = true ∧
    resolveOutputDir envNoReq "/blocked" "/fb" =
      Except.ok ("/fb", some (fallbackMessage "/blocked" "/fb")) :=
  ⟨rfl, rfl,
   ((C4_directory_fallback envNoReq "/blocked" "/fb" dt0 [] docToc).2.1
     rfl rfl).1⟩

/-- C5: for a pre-validation value set carrying only the page kind and the
`image` shorthand, the validator removes the shorthand key and sets exactly
the kind-appropriate field — `diagram_url`/`diagram_path` for the diagram
kind, `image_url`/`image_path` for every other kind — chosen by the HTTP(S)
scheme test, leaving the chosen pair's sibling (and the other pair) unset. -/
theorem C5_image_shorthand (pt : PageType) (iv : String) :
    handle_image_field { page_type := some pt, image := some iv } =
      (if pt = PageType.diagram then
        (if isUrl iv then { page_type := some pt, diagram_url := some iv }
         else { page_type := some pt, diagram_path := some iv })
       else
        (if isUrl iv then { page_type := some pt, image_url := some iv }
         else { page_type := some pt, image_path := some iv }) : RawPageValues) := by
  unfold handle_image_field
  by_cases h : pt = PageType.diagram <;> by_cases hu : isUrl iv <;>
    simp [h, hu]

/-- C6: theme resolution is total field-level overlay: supplying only
`colors.primary` yields the default theme with just that color replaced
(every other color, both fonts, and every size/spacing/geometry field at its
default), and each nested group's resolution depends only on that group's
input. -/
theorem C6_theme_overlay (p : String) :
    ThemeSpec.resolve { colors := some { primary := some p } } =
      { colors := { primary := p } } ∧
    (ThemeSpec.resolve { colors := some { primary := some p } }).colors.secondary =
      "#1CCBD0" ∧
    (∀ i j : ThemeSpecInput, i.colors = j.colors →
      (ThemeSpec.resolve i).colors = (ThemeSpec.resolve j).colors) ∧
    (∀ i j : ThemeSpecInput, i.fonts = j.fonts →
      (ThemeSpec.resolve i).fonts = (ThemeSpec.resolve j).fonts) := by
  refine ⟨rfl, rfl, ?_, ?_⟩ <;> intro i j h <;> simp [ThemeSpec.resolve, h]

/-- Witness for C6: a concrete overlay plus group independence (changing
only the fonts group leaves the resolved colors untouched). -/
theorem C6_witness :
    ThemeSpec.resolve { colors := some { primary := some "#000000" } } =
      { colors := { primary := "#000000" } } ∧
    (ThemeSpec.resolve { fonts := some { body := some "Times" } }).colors =
      (ThemeSpec.resolve {}).colors :=
  ⟨(C6_theme_overlay "#000000").1,
   (C6_theme_overlay "x").2.2.1 { fonts := some { body := some "Times" } } {} rfl⟩

/-- Description rendering never emits an image primitive. -/
theorem descrAsBullets_no_image (d : Option Descr) (pth : String) :
    Primitive.image pth ∉ descrAsBullets d := by
  match d with
  | none => simp [descrAsBullets]
  | some (Descr.str s) => by_cases h : s = "" <;> simp [descrAsBullets, h]
  | some (Descr.list l) => by_cases h : l = [] <;> simp [descrAsBullets, h]

/-- C7: when the diagram renderer fails (non-zero exit, timeout, or missing
tool), the mermaid page still composes — with the visible inline error
paragraph in place of the image (no image primitive anywhere on the page) —
and the page loop continues exactly as it would for the remaining pages. -/
theorem C7_mermaid_failure_recovered (env : Env) (p : PageSpec) (t c : String)
    (hpt : p.page_type = PageType.mermaid) (ht : p.title = some t)
    (hc : p.mermaid_code = some c) (hne : c ≠ "")
    (hfail : ∀ png, env.renderDiagram c ≠ MermaidOutcome.success png) :
    generatePage env p =
      some (([Primitive.para t Style.h1, Primitive.spacer 20]
        ++ ([Primitive.para mermaidErrMsg Style.body] ++ descrAsBullets p.description))
        ++ [Primitive.pageBreak], []) ∧
    (∀ pth, Primitive.image pth ∉
        ([Primitive.para t Style.h1, Primitive.spacer 20]
        ++ ([Primitive.para mermaidErrMsg Style.body] ++ descrAsBullets p.description))
        ++ [Primitive.pageBreak]) ∧
    (∀ rest, (composePages env (p :: rest)).isOk = (composePages env rest).isOk) := by
  have hmp : mermaidPart env p = ([Primitive.para mermaidErrMsg Style.body], []) := by
    simp only [mermaidPart, hc]
    rw [if_neg hne]
  have hgen : generatePage env p =
      some (([Primitive.para t Style.h1, Primitive.spacer 20]
        ++ ([Primitive.para mermaidErrMsg Style.body] ++ descrAsBullets p.description))
        ++ [Primitive.pageBreak], []) := by
    simp only [generatePage, pageCore, hpt, mermaidCore, ht, Option.map_some',
      mermaidBody, hmp]
  refine ⟨hgen, ?_, ?_⟩
  · intro pth hmem
    rcases List.mem_append.mp hmem with hmem | hmem
    · rcases List.mem_append.mp hmem with hmem | hmem
      · simp at hmem
      · rcases List.mem_append.mp hmem with hmem | hmem
        · simp at hmem
        · exact descrAsBullets_no_image p.description pth hmem
    · simp at hmem
  · intro rest
    simp only [composePages, hgen]
    cases composePages env rest <;> rfl

/-- Witness for C7: a concrete mermaid page whose render exits non-zero
composes to heading, spacer, error paragraph, page break. -/
theorem C7_witness :
    (∀ png, env0.renderDiagram "g" ≠ MermaidOutcome.success png) ∧
    generatePage env0
      { page_type := PageType.mermaid, title := some "D", mermaid_code := some "g" } =
      some ([Primitive.para "D" Style.h1, Primitive.spacer 20,
        Primitive.para mermaidErrMsg Style.body, Primitive.pageBreak], []) := by
  have hfail : ∀ png, env0.renderDiagram "g" ≠ MermaidOutcome.success png := by
    intro png h
    simp [env0] at h
  refine ⟨hfail, ?_⟩
  have h := (C7_mermaid_failure_recovered env0
    { page_type := PageType.mermaid, title := some "D", mermaid_code := some "g" }
    "D" "g" rfl rfl rfl (by decide) hfail).1
  exact h.trans rfl

/-- C8: on diagram and image pages the path field takes precedence over the
URL field when both are given; a diagram page's sequence description renders
as one bullet paragraph per entry while a string renders as one paragraph;
an image page's sequence description is joined with a line break into a
single paragraph. -/
theorem C8_precedence_and_descriptions (env : Env) :
    (∀ p t dp, p.page_type = PageType.diagram → p.title = some t →
        p.diagram_path = some dp → dp ≠ "" →
        generatePage env p = some ((([Primitive.para t Style.h1, Primitive.spacer 20]
          ++ ((addImage env dp p.caption).1 ++ descrAsBullets p.description))
          ++ [Primitive.pageBreak]), (addImage env dp p.caption).2)) ∧
    (∀ p t ip, p.page_type = PageType.image → p.title = some t →
        p.image_path = some ip → ip ≠ "" →
        generatePage env p = some ((([Primitive.para t Style.h1, Primitive.spacer 20]
          ++ ((addImage env ip p.caption).1 ++ descrAsJoined p.description))
          ++ [Primitive.pageBreak]), (addImage env ip p.caption).2)) ∧
    (∀ ds, ds ≠ [] → descrAsBullets (some (Descr.list ds)) =
        Primitive.spacer 20 :: ds.map (fun s => Primitive.para ("• " ++ s) Style.bullet)) ∧
    (∀ s, s ≠ "" → descrAsBullets (some (Descr.str s)) =
        [Primitive.spacer 20, Primitive.para s Style.body]) ∧
    (∀ ds, ds ≠ [] → descrAsJoined (some (Descr.list ds)) =
        [Primitive.spacer 20, Primitive.para (String.intercalate "\n" ds) Style.body]) := by
  refine ⟨?_, ?_, ?_, ?_, ?_⟩
  · intro p t dp hpt ht hdp hne
    have href : pyOr p.diagram_path p.diagram_url = some dp := by
      rw [hdp]
      simp [pyOr, hne]
    simp only [generatePage, pageCore, hpt, diagramCore, ht, Option.map_some',
      diagramBody, href, imageFromRef, if_neg hne]
  · intro p t ip hpt ht hip hne
    have href : pyOr p.image_path p.image_url = some ip := by
      rw [hip]
      simp [pyOr, hne]
    simp only [generatePage, pageCore, hpt, imageCore, ht, Option.map_some',
      imageBody, href, imageFromRef, if_neg hne]
  · intro ds h
    simp [descrAsBullets, h]
  · intro s h
    simp [descrAsBullets, h]
  · intro ds h
    simp [descrAsJoined, h]

/-- Witness for C8: with both `diagram_path` and `diagram_url` set the page
embeds the path; and a two-entry image description joins into one
paragraph. -/
theorem C8_witness :
    generatePage env0
      { page_type := PageType.diagram, title := some "D",
        diagram_path := some "/a.png", diagram_url := some "http://x/y.png" } =
      some ([Primitive.para "D" Style.h1, Primitive.spacer 20,
        Primitive.image "/a.png", Primitive.pageBreak], []) ∧
    descrAsJoined (some (Descr.list ["a", "b"])) =
      [Primitive.spacer 20,
       Primitive.para (String.intercalate "\n" ["a", "b"]) Style.body] := by
  constructor
  · have h := (C8_precedence_and_descriptions env0).1
      { page_type := PageType.diagram, title := some "D",
        diagram_path := some "/a.png", diagram_url := some "http://x/y.png" }
      "D" "/a.png" rfl rfl rfl (by decide)
    exact h.trans rfl
  · exact (C8_precedence_and_descriptions env0).2.2.2.2 ["a", "b"] (by decide)

/-- A completed page loop implies every page of the document composed. -/
theorem composePages_ok_isSome (env : Env) (pages : List PageSpec)
    (s : List Primitive) (d : List String)
    (h : composePages env pages = ComposeResult.ok s d) :
    ∀ p ∈ pages, (generatePage env p).isSome = true := by
  induction pages generalizing s d with
  | nil => intro p hp; exact absurd hp (by simp)
  | cons q rest ih =>
    intro p hp
    simp only [composePages] at h
    cases hg : generatePage env q with
    | none => rw [hg] at h; exact absurd h (by simp)
    | some pr =>
      rw [hg] at h
      cases hr : composePages env rest with
      | failed s2 d2 => rw [hr] at h; exact absurd h (by simp)
      | ok s2 d2 =>
        rcases List.mem_cons.mp hp with rfl | hpm
        · simp [hg]
        · exact ih s2 d2 hr p hpm

/-- C9: a title, section, or content page with `title` unset raises — its
composition yields no page and the whole run cannot complete — while the
same kinds with a set title always compose (the genuinely optional fields
are guarded). -/
theorem C9_title_required (env : Env) :
    (∀ p, (p.page_type = PageType.title ∨ p.page_type = PageType.sect ∨
           p.page_type = PageType.content) → p.title = none →
        generatePage env p = none) ∧
    (∀ p pages s d, p ∈ pages → generatePage env p = none →
        composePages env pages ≠ ComposeResult.ok s d) ∧
    (∀ p t, (p.page_type = PageType.title ∨ p.page_type = PageType.sect ∨
             p.page_type = PageType.content) → p.title = some t →
        (generatePage env p).isSome = true) := by
  refine ⟨?_, ?_, ?_⟩
  · rintro p (hpt | hpt | hpt) ht <;>
      simp [generatePage, pageCore, hpt, titleCore, sectCore, contentCore, ht]
  · intro p pages s d hp hg hok
    have hs := composePages_ok_isSome env pages s d hok p hp
    rw [hg] at hs
    exact absurd hs (by simp)
  · rintro p t (hpt | hpt | hpt) ht <;>
      simp [generatePage, pageCore, hpt, titleCore, sectCore, contentCore, ht]

/-- Witness for C9: a section page without a title aborts; with a title it
composes. -/
theorem C9_witness :
    generatePage env0 { page_type := PageType.sect } = none ∧
    (generatePage env0 { page_type := PageType.sect, title := some "S" }).isSome = true ∧
    composePages env0 [{ page_type := PageType.sect }] ≠ ComposeResult.ok [] [] :=
  ⟨(C9_title_required env0).1 { page_type := PageType.sect }
     (Or.inr (Or.inl rfl)) rfl,
   (C9_title_required env0).2.2 { page_type := PageType.sect, title := some "S" }
     "S" (Or.inr (Or.inl rfl)) rfl,
   (C9_title_required env0).2.1 { page_type := PageType.sect }
     [{ page_type := PageType.sect }] [] [] (by simp)
     ((C9_title_required env0).1 { page_type := PageType.sect }
       (Or.inr (Or.inl rfl)) rfl)⟩

/-- C10: a mermaid page whose `mermaid_code` is unset or empty emits neither
an image nor the inline error paragraph — the mermaid segment is empty, the
page is heading, spacer, optional description, page break, and composition
succeeds. -/
theorem C10_empty_mermaid_skips (env : Env) (p : PageSpec) (t : String)
    (hpt : p.page_type = PageType.mermaid) (ht : p.title = some t)
    (hc : p.mermaid_code = none ∨ p.mermaid_code = some "") :
    mermaidPart env p = ([], []) ∧
    generatePage env p =
      some (([Primitive.para t Style.h1, Primitive.spacer 20]
        ++ ([] ++ descrAsBullets p.description)) ++ [Primitive.pageBreak], []) ∧
    (∀ pth, Primitive.image pth ∉
        ([Primitive.para t Style.h1, Primitive.spacer 20]
        ++ ([] ++ descrAsBullets p.description)) ++ [Primitive.pageBreak]) := by
  have hmp : mermaidPart env p = ([], []) := by
    rcases hc with hc | hc <;> simp [mermaidPart, hc]
  refine ⟨hmp, ?_, ?_⟩
  · simp only [generatePage, pageCore, hpt, mermaidCore, ht, Option.map_some',
      mermaidBody, hmp]
  · intro pth hmem
    rcases List.mem_append.mp hmem with hmem | hmem
    · rcases List.mem_append.mp hmem with hmem | hmem
      · simp at hmem
      · rcases List.mem_append.mp hmem with hmem | hmem
        · simp at hmem
        · exact descrAsBullets_no_image p.description pth hmem
    · simp at hmem

/-- Witness for C10: a mermaid page with no `mermaid_code` composes to just
heading, spacer, page break. -/
theorem C10_witness :
    mermaidPart env0 { page_type := PageType.mermaid, title := some "D" } = ([], []) ∧
    generatePage env0 { page_type := PageType.mermaid, title := some "D" } =
      some ([Primitive.para "D" Style.h1, Primitive.spacer 20, Primitive.pageBreak], []) := by
  have h := C10_empty_mermaid_skips env0
    { page_type := PageType.mermaid, title := some "D" } "D" rfl rfl (Or.inl rfl)
  exact ⟨h.1, h.2.1.trans rfl⟩

end McpPdf
